import Mathlib

/-!
Verification development for the salmongis repository snapshot.

The snapshot holds four files: the mkdocs site configuration (an unnamed
file, conventionally mkdocs.yml), the documentation landing page
docs/index.md, the example notebook docs/examples/raster.ipynb, and an
unnamed second copy of that notebook with slightly different recorded
execution state. The salmongis package sources themselves are not in the
snapshot; where a property depends on them, a definition is modelled from
the specification text and marked as such.

The notebooks are embedded as lists of cells whose code is a small
statement language covering exactly the forms the cells use: module
loading, literal assignment, constructor assignment, method calls with
positional and keyword arguments, and a bare variable display expression.
Recorded outputs keep the fields the claims need: whether an
execute_result is present and the widget model id it carries.
-/

namespace Salmongis

/-- A Python literal as it appears in the notebook cells: a string, a
numeric literal kept as its source text, a boolean, a list of numeric
literals, or a pair of pairs of numeric literals (the bounds tuples). -/
inductive PyLit where
  | str (s : String)
  | num (src : String)
  | bool (b : Bool)
  | numList (xs : List String)
  | numPairPair (a b c d : String)
deriving DecidableEq, Repr

/-- An argument expression: a literal or a reference to a variable. -/
inductive PyExpr where
  | lit (v : PyLit)
  | varRef (nm : String)
deriving DecidableEq, Repr

/-- An argument of a method call: positional, or keyword with its name. -/
inductive Arg where
  | pos (e : PyExpr)
  | kw (nm : String) (e : PyExpr)
deriving DecidableEq, Repr

/-- Whether an argument is a keyword argument. -/
def Arg.isKw : Arg → Bool
  | .pos _ => false
  | .kw _ _ => true

/-- A statement of a notebook code cell, restricted to the forms the
example cells use. -/
inductive Stmt where
  | importMod (modName : String)
  | assign (lhs : String) (rhs : PyExpr)
  | assignCtor (lhs : String) (modName : String) (ctor : String) (args : List Arg)
  | methodCall (recv : String) (method : String) (args : List Arg)
  | exprVar (nm : String)
deriving DecidableEq, Repr

/-- A recorded cell output; the notebooks only record execute_result
outputs carrying a Jupyter widget view with its model id. -/
structure Output where
  isExecuteResult : Bool
  widgetModelId : Option String
deriving DecidableEq, Repr

/-- A notebook cell: its kind, its stable id, the recorded execution
count, its statements (empty for markdown cells), and its outputs. -/
structure Cell where
  cellType : String
  cellId : String
  executionCount : Option Nat
  stmts : List Stmt
  outputs : List Output
deriving DecidableEq, Repr

/-- The notebook docs/examples/raster.ipynb, cell by cell. -/
def raster_ipynb : List Cell :=
  [ { cellType := "markdown", cellId := "472a97be", executionCount := none,
      stmts := [], outputs := [] },
    { cellType := "code", cellId := "ab592ab3", executionCount := some 1,
      stmts := [.importMod "salmongis"], outputs := [] },
    { cellType := "code", cellId := "8eceb48c", executionCount := some 2,
      stmts :=
        [ .assignCtor "m" "salmongis" "Map"
            [ .kw "center" (.lit (.numList ["40", "-100"])),
              .kw "zoom" (.lit (.num "4")) ],
          .methodCall "m" "add_layer_control" [],
          .exprVar "m" ],
      outputs := [{ isExecuteResult := true,
                    widgetModelId := some "faeaa000dcba4047872a0d13e284569c" }] },
    { cellType := "code", cellId := "bc345a90", executionCount := some 3,
      stmts :=
        [ .assign "filename"
            (.lit (.str "https://github.com/opengeos/datasets/releases/download/raster/LC09_039035_20240708_90m.tif")),
          .methodCall "m" "add_raster"
            [ .pos (.varRef "filename"),
              .kw "indexes" (.lit (.numList ["5", "4", "3"])),
              .kw "name" (.lit (.str "landsat")),
              .kw "opacity" (.lit (.num "0.5")) ] ],
      outputs := [] },
    { cellType := "code", cellId := "923d026c", executionCount := none,
      stmts :=
        [ .assign "url"
            (.lit (.str "https://geography.utk.edu/wp-content/uploads/2023/10/Michael_Camponovo.800x1200.webp")),
          .assign "bounds" (.lit (.numPairPair "13" "-150" "40" "-120")),
          .methodCall "m" "add_image" [.pos (.varRef "url"), .pos (.varRef "bounds")],
          .exprVar "m" ],
      outputs := [] },
    { cellType := "code", cellId := "9f9adde7", executionCount := none,
      stmts :=
        [ .assign "url"
            (.lit (.str "https://imagery.nationalmap.gov/arcgis/services/USGSNAIPPlus/ImageServer/WMSServer?")),
          .assign "layers" (.lit (.str "USGSNAIPPlus:FalseColorComposite")),
          .methodCall "m" "add_wms_layer"
            [ .pos (.varRef "url"), .pos (.varRef "layers"),
              .kw "format" (.lit (.str "image/png")),
              .kw "transparent" (.lit (.bool true)) ],
          .exprVar "m" ],
      outputs := [] },
    { cellType := "code", cellId := "01bea480", executionCount := none,
      stmts :=
        [ .assign "url" (.lit (.str "https://static-assets.mapbox.com/mapbox-gl-js/drone.mp4")),
          .assign "bounds"
            (.lit (.numPairPair "37.56238816" "-122.515963" "37.563391708" "-122.5130939")),
          .methodCall "m" "add_video" [.pos (.varRef "url"), .pos (.varRef "bounds")],
          .exprVar "m" ],
      outputs := [] } ]

/-- The unnamed snapshot file part_001: the same notebook in an earlier
recorded execution state. It differs from docs/examples/raster.ipynb in
the add_raster cell (an extra zoom_to_layer keyword and a trailing
display of m), in the recorded execution counts, and in having three
recorded widget outputs, all with the same model id. -/
def part001_ipynb : List Cell :=
  [ { cellType := "markdown", cellId := "472a97be", executionCount := none,
      stmts := [], outputs := [] },
    { cellType := "code", cellId := "ab592ab3", executionCount := some 1,
      stmts := [.importMod "salmongis"], outputs := [] },
    { cellType := "code", cellId := "8eceb48c", executionCount := some 2,
      stmts :=
        [ .assignCtor "m" "salmongis" "Map"
            [ .kw "center" (.lit (.numList ["40", "-100"])),
              .kw "zoom" (.lit (.num "4")) ],
          .methodCall "m" "add_layer_control" [],
          .exprVar "m" ],
      outputs := [{ isExecuteResult := true,
                    widgetModelId := some "066c40ee5cda4f59b70ad4d87a35e2fc" }] },
    { cellType := "code", cellId := "bc345a90", executionCount := some 5,
      stmts :=
        [ .assign "filename"
            (.lit (.str "https://github.com/opengeos/datasets/releases/download/raster/LC09_039035_20240708_90m.tif")),
          .methodCall "m" "add_raster"
            [ .pos (.varRef "filename"),
              .kw "indexes" (.lit (.numList ["5", "4", "3"])),
              .kw "name" (.lit (.str "landsat")),
              .kw "opacity" (.lit (.num "0.5")),
              .kw "zoom_to_layer" (.lit (.bool true)) ],
          .exprVar "m" ],
      outputs := [{ isExecuteResult := true,
                    widgetModelId := some "066c40ee5cda4f59b70ad4d87a35e2fc" }] },
    { cellType := "code", cellId := "923d026c", executionCount := some 6,
      stmts :=
        [ .assign "url"
            (.lit (.str "https://geography.utk.edu/wp-content/uploads/2023/10/Michael_Camponovo.800x1200.webp")),
          .assign "bounds" (.lit (.numPairPair "13" "-150" "40" "-120")),
          .methodCall "m" "add_image" [.pos (.varRef "url"), .pos (.varRef "bounds")],
          .exprVar "m" ],
      outputs := [{ isExecuteResult := true,
                    widgetModelId := some "066c40ee5cda4f59b70ad4d87a35e2fc" }] },
    { cellType := "code", cellId := "9f9adde7", executionCount := none,
      stmts :=
        [ .assign "url"
            (.lit (.str "https://imagery.nationalmap.gov/arcgis/services/USGSNAIPPlus/ImageServer/WMSServer?")),
          .assign "layers" (.lit (.str "USGSNAIPPlus:FalseColorComposite")),
          .methodCall "m" "add_wms_layer"
            [ .pos (.varRef "url"), .pos (.varRef "layers"),
              .kw "format" (.lit (.str "image/png")),
              .kw "transparent" (.lit (.bool true)) ],
          .exprVar "m" ],
      outputs := [] },
    { cellType := "code", cellId := "01bea480", executionCount := none,
      stmts :=
        [ .assign "url" (.lit (.str "https://static-assets.mapbox.com/mapbox-gl-js/drone.mp4")),
          .assign "bounds"
            (.lit (.numPairPair "37.56238816" "-122.515963" "37.563391708" "-122.5130939")),
          .methodCall "m" "add_video" [.pos (.varRef "url"), .pos (.varRef "bounds")],
          .exprVar "m" ],
      outputs := [] } ]

/-- The five convenience methods the spec names on the Map object. -/
def convenienceMethods : List String :=
  ["add_raster", "add_image", "add_wms_layer", "add_video", "add_layer_control"]

/-- The four convenience methods that add a layer from a resource. -/
def layerMethods : List String :=
  ["add_raster", "add_image", "add_wms_layer", "add_video"]

/-- All statements of a notebook, in cell order. -/
def stmtsOf (nb : List Cell) : List Stmt :=
  (nb.map Cell.stmts).flatten

/-- A method call extracted from a notebook: receiver, method, arguments. -/
structure MCall where
  recv : String
  method : String
  args : List Arg
deriving DecidableEq, Repr

/-- Variables a notebook binds to a salmongis.Map constructor call. -/
def mapVars (nb : List Cell) : List String :=
  (stmtsOf nb).filterMap fun s =>
    match s with
    | .assignCtor lhs modName ctor _ =>
        if modName == "salmongis" && ctor == "Map" then some lhs else none
    | _ => none

/-- All method calls a notebook makes on a variable bound to a
salmongis.Map object. -/
def mapCalls (nb : List Cell) : List MCall :=
  (stmtsOf nb).filterMap fun s =>
    match s with
    | .methodCall r meth args =>
        if (mapVars nb).contains r then some { recv := r, method := meth, args := args }
        else none
    | _ => none

/-- The method names a notebook invokes on the Map, in order. -/
def mapCallMethods (nb : List Cell) : List String :=
  (mapCalls nb).map MCall.method

/-- A variable environment built by the assignments a notebook executes. -/
def Env := List (String × PyLit)

/-- Look a variable up in the environment, latest binding first. -/
def lookupVar : Env → String → Option PyLit
  | [], _ => none
  | (k, v) :: rest, nm => if k == nm then some v else lookupVar rest nm

/-- Evaluate an argument expression under an environment: a literal is
itself, a variable reference is its bound value. -/
def evalExpr (env : Env) : PyExpr → Option PyLit
  | .lit v => some v
  | .varRef nm => lookupVar env nm

/-- A resolved argument: the value the callee receives, since Python
evaluates every argument expression before the call. -/
inductive RArg where
  | pos (v : PyLit)
  | kw (nm : String) (v : PyLit)
deriving DecidableEq, Repr

/-- Resolve one argument under an environment. -/
def resolveArg (env : Env) : Arg → Option RArg
  | .pos e => (evalExpr env e).map RArg.pos
  | .kw nm e => (evalExpr env e).map (RArg.kw nm)

/-- Resolve a whole argument list; fails if any argument fails. -/
def resolveArgs (env : Env) (args : List Arg) : Option (List RArg) :=
  args.mapM (resolveArg env)

/-- A method call with its arguments resolved to the values the callee
receives at that point of the execution. -/
structure RCall where
  recv : String
  method : String
  rargs : Option (List RArg)
deriving DecidableEq, Repr

/-- Run the statements in order, threading the environment the way the
notebook kernel does, and collect every method call together with its
resolved arguments. -/
def runStmts : Env → List Stmt → List RCall
  | _, [] => []
  | env, s :: rest =>
    match s with
    | .importMod _ => runStmts env rest
    | .assign lhs rhs =>
        match evalExpr env rhs with
        | some v => runStmts ((lhs, v) :: env) rest
        | none => runStmts env rest
    | .assignCtor _ _ _ _ => runStmts env rest
    | .methodCall r meth args =>
        { recv := r, method := meth, rargs := resolveArgs env args } :: runStmts env rest
    | .exprVar _ => runStmts env rest

/-- Every method call of a notebook with resolved arguments, in execution
order, starting from an empty environment. -/
def resolvedCalls (nb : List Cell) : List RCall :=
  runStmts [] (stmtsOf nb)

/-- Whether one string is a prefix of another, checked on the character
lists so that the kernel can evaluate it. -/
def strHasPrefix (pre s : String) : Bool :=
  pre.toList.isPrefixOf s.toList

/-- Whether one string is a suffix of another, checked on the character
lists so that the kernel can evaluate it. -/
def strHasSuffix (suf s : String) : Bool :=
  suf.toList.isSuffixOf s.toList

/-- Whether a resolved call passes an https URL string as its first
positional argument. -/
def RCall.firstArgIsHttpsUrl (c : RCall) : Bool :=
  match c.rargs with
  | some (RArg.pos (PyLit.str u) :: _) => strHasPrefix "https://" u
  | _ => false

/-- Modelled from the spec: the salmongis Map implementation is not in the
snapshot (the notebooks only call it). The spec describes the Map as a
notebook widget whose five convenience methods are one-line delegations
to the underlying mapping-widget APIs, passing exactly the arguments of
the caller, with no retry, caching, eviction, or consistency logic. The
state is therefore the widget identity plus the list of underlying
library calls made so far, and each convenience method appends exactly
one underlying call carrying the argument values of the caller. -/
structure MapState where
  modelId : String
  underlyingCalls : List (String × List RArg)
deriving DecidableEq, Repr

/-- Modelled from the spec: a convenience method delegates to the
underlying library in one step, recording the call with exactly the
arguments the caller gave and leaving everything else, the widget
identity included, unchanged. -/
def MapState.invoke (m : MapState) (method : String) (args : List RArg) : MapState :=
  { m with underlyingCalls := m.underlyingCalls ++ [(method, args)] }

/-- An entry of the navigation section of the site configuration: an
internal documentation file or an external link. -/
inductive NavTarget where
  | doc (path : String)
  | external (url : String)
deriving DecidableEq, Repr

/-- The mkdocs-jupyter plugin options as set in the site configuration. -/
structure JupyterPluginCfg where
  includeSource : Bool
  ignoreH1Titles : Bool
  execute : Bool
  allowErrors : Bool
  ignoreFiles : List String
  executeIgnoreGlobs : List String
deriving DecidableEq, Repr

/-- The site configuration fields the snapshot sets: site identity, the
theme name, the plugin list with the mkdocs-jupyter options, the markdown
extensions, and the navigation entries in order. It is a static
descriptor: every field is data. -/
structure MkdocsConfig where
  siteName : String
  siteAuthor : String
  repoUrl : String
  themeName : String
  plugins : List String
  jupyterCfg : JupyterPluginCfg
  markdownExtensions : List String
  navTargets : List NavTarget
deriving DecidableEq, Repr

/-- The site configuration of the snapshot (the unnamed file part_000,
conventionally mkdocs.yml), transcribed field by field. -/
def mkdocsCfg : MkdocsConfig :=
  { siteName := "salmongis",
    siteAuthor := "GISCreations",
    repoUrl := "https://github.com/GISCreations/salmongis",
    themeName := "material",
    plugins :=
      [ "search", "mkdocstrings", "git-revision-date",
        "git-revision-date-localized", "mkdocs-jupyter" ],
    jupyterCfg :=
      { includeSource := true,
        ignoreH1Titles := true,
        execute := true,
        allowErrors := false,
        ignoreFiles := ["conf.py"],
        executeIgnoreGlobs := ["*ignore.ipynb"] },
    markdownExtensions :=
      [ "admonition", "abbr", "attr_list", "def_list", "footnotes", "meta",
        "md_in_html", "pymdownx.superfences", "pymdownx.highlight", "toc" ],
    navTargets :=
      [ .doc "index.md",
        .doc "installation.md",
        .doc "usage.md",
        .doc "contributing.md",
        .doc "faq.md",
        .doc "changelog.md",
        .external "https://github.com/GISCreations/salmongis/issues",
        .doc "examples/intro.ipynb",
        .doc "examples/folium.ipynb",
        .doc "examples/ipyleaflet.ipynb",
        .doc "examples/split_map.ipynb",
        .doc "examples/raster.ipynb",
        .doc "examples/widgets.ipynb",
        .doc "salmongis.md",
        .doc "common.md",
        .doc "foliumap.md",
        .doc "graphs.md" ] }

/-- The internal documentation files the navigation names, in order. -/
def navDocs : List String :=
  mkdocsCfg.navTargets.filterMap fun t =>
    match t with
    | .doc p => some p
    | .external _ => none

/-- The documentation files that exist in the snapshot, as paths relative
to the docs directory: only the landing page and the raster notebook.
The two unnamed snapshot files carry no path; one is the site
configuration itself and the other is a second copy of the raster
notebook. -/
def snapshotDocPaths : List String :=
  ["index.md", "examples/raster.ipynb"]

/-- The requirements list of docs/index.md, in order. -/
def indexRequirements : List String :=
  [ "folium", "geopandas", "ipyleaflet", "leafmap", "localtileserver",
    "matplotlib", "numpy", "ipywidgets", "xarray", "pandas", "netcdf4",
    "h5netcdf", "scipy", "ipyfilechooser" ]

/-- The three libraries the spec calls the facade targets. -/
def facadeLibraries : List String :=
  ["ipyleaflet", "folium", "localtileserver"]

/-- A glob pattern match as mkdocs-jupyter applies it to the patterns the
configuration uses: a leading star matches any ending with the rest of
the pattern, and a pattern without a star matches only itself. -/
def globMatch (pat nm : String) : Bool :=
  if strHasPrefix "*" pat then strHasSuffix (pat.drop 1) nm else pat == nm

/-- Whether the plugin processes a file at all: files in the ignore list
are excluded from the plugin entirely. -/
def JupyterPluginCfg.processes (p : JupyterPluginCfg) (nm : String) : Bool :=
  !(p.ignoreFiles.contains nm)

/-- Whether the plugin executes a notebook during the build: it must be
processed, execution must be on, and no execute_ignore glob may match. -/
def JupyterPluginCfg.willExecute (p : JupyterPluginCfg) (nm : String) : Bool :=
  p.processes nm && p.execute && !(p.executeIgnoreGlobs.any fun g => globMatch g nm)

/-- Whether an error raised in a cell of the named notebook fails the
site build: the notebook is executed and errors are not allowed. -/
def JupyterPluginCfg.cellErrorFailsBuild (p : JupyterPluginCfg) (nm : String) : Bool :=
  p.willExecute nm && !p.allowErrors

/-- A file of the repository snapshot, classified by kind: the static
site configuration, a static documentation page, or an example notebook. -/
inductive RepoFile where
  | siteConfig (cfg : MkdocsConfig)
  | docPage (path : String)
  | exampleNotebook (path : String) (nb : List Cell)
deriving DecidableEq, Repr

/-- The four files of the snapshot. The two unnamed files are listed
under their snapshot placeholders. -/
def repoFiles : List RepoFile :=
  [ .siteConfig mkdocsCfg,
    .docPage "docs/index.md",
    .exampleNotebook "docs/examples/raster.ipynb" raster_ipynb,
    .exampleNotebook "unnamed/part_001" part001_ipynb ]

/-- Whether a repository file is the site configuration. -/
def RepoFile.isSiteConfig : RepoFile → Bool
  | .siteConfig _ => true
  | _ => false

/-- Whether a repository file is a static documentation page. -/
def RepoFile.isDocPage : RepoFile → Bool
  | .docPage _ => true
  | _ => false

/-- Whether a notebook imports the salmongis package. -/
def importsSalmongis (nb : List Cell) : Bool :=
  (stmtsOf nb).any fun s =>
    match s with
    | .importMod nm => nm == "salmongis"
    | _ => false

/-- Whether a repository file is an example notebook that imports
salmongis and whose calls on the Map are all convenience methods. -/
def RepoFile.isConvenienceNotebook : RepoFile → Bool
  | .exampleNotebook _ nb =>
      importsSalmongis nb
        && (mapCallMethods nb).all (convenienceMethods.contains ·)
  | _ => false

/-- Whether an argument list is an initial run of positional arguments
followed exclusively by keyword arguments. -/
def posThenKw : List Arg → Bool
  | [] => true
  | Arg.pos _ :: rest => posThenKw rest
  | Arg.kw _ _ :: rest => rest.all Arg.isKw

/-- Whether a cell ends in a bare convenience-method call, so that the
value of that call is the value of the cell. -/
def endsInBareConvCall (c : Cell) : Bool :=
  match c.stmts.getLast? with
  | some (.methodCall _ meth _) => convenienceMethods.contains meth
  | _ => false

/-- Whether a cell records an execute_result output. -/
def hasExecResult (c : Cell) : Bool :=
  c.outputs.any Output.isExecuteResult

/-- The Jupyter display rule observed on the recorded notebook: an
executed code cell whose final statement is an expression records an
execute_result exactly when the value of that expression is not None. If
every convenience call yielded a widget value usable for a further call,
every executed cell ending in a bare convenience call would therefore
record an execute_result. -/
def chainReturnObserved (nb : List Cell) : Bool :=
  nb.all fun c =>
    !(c.executionCount.isSome && endsInBareConvCall c) || hasExecResult c

/-- The widget model ids of the executed cells that end by displaying the
variable m, in cell order. -/
def displayedModelIds (nb : List Cell) : List String :=
  nb.filterMap fun c =>
    if c.executionCount.isSome && c.stmts.getLast? == some (.exprVar "m") then
      (c.outputs.filterMap Output.widgetModelId).head?
    else none

/-- The convenience methods called in each executed cell that ends by
displaying m, in cell order. -/
def methodsBeforeDisplay (nb : List Cell) : List (List String) :=
  nb.filterMap fun c =>
    if c.executionCount.isSome && c.stmts.getLast? == some (.exprVar "m") then
      some (c.stmts.filterMap fun s =>
        match s with
        | .methodCall _ meth _ =>
            if convenienceMethods.contains meth then some meth else none
        | _ => none)
    else none

/-- Claim C1: the example notebook calls each of the five convenience
methods on a salmongis.Map object, and those five are the only
salmongis-specific operations the examples invoke on the Map; this holds
of docs/examples/raster.ipynb and of the unnamed notebook copy alike. -/
theorem c1_examples_call_exactly_the_five_convenience_methods :
    (convenienceMethods.all fun meth => (mapCallMethods raster_ipynb).contains meth) = true
    ∧ ((mapCallMethods raster_ipynb).all (convenienceMethods.contains ·)) = true
    ∧ (convenienceMethods.all fun meth => (mapCallMethods part001_ipynb).contains meth) = true
    ∧ ((mapCallMethods part001_ipynb).all (convenienceMethods.contains ·)) = true := by
  refine ⟨by decide, by decide, by decide, by decide⟩

/-- Claim C2: each of the five convenience methods is a one-step
delegation: on any map state and any argument values, it invokes the
underlying mapping-widget call with exactly the arguments the caller
gave, adds exactly one underlying call, and changes nothing else, the
widget identity included; no retry, caching, eviction, or consistency
step exists in the modelled operation. -/
theorem c2_convenience_methods_delegate_with_exact_arguments
    (m : MapState) (method : String) (args : List RArg)
    (_hm : method ∈ convenienceMethods) :
    (m.invoke method args).underlyingCalls = m.underlyingCalls ++ [(method, args)]
    ∧ (m.invoke method args).modelId = m.modelId
    ∧ (m.invoke method args).underlyingCalls.length = m.underlyingCalls.length + 1 := by
  refine ⟨rfl, rfl, ?_⟩
  simp [MapState.invoke]

/-- Witness for claim C2 at a concrete map state and call. -/
theorem c2_delegation_witness :
    "add_raster" ∈ convenienceMethods
    ∧ ((MapState.mk "w0" []).invoke "add_raster" []).underlyingCalls
        = [] ++ [("add_raster", [])] :=
  ⟨by decide,
   (c2_convenience_methods_delegate_with_exact_arguments
      (MapState.mk "w0" []) "add_raster" [] (by decide)).1⟩

/-- Claim C3: in both example notebooks, every layer-adding call
receives as its first positional argument a string whose value, resolved
through the notebook variable bindings, is an https URL, and the
modelled delegation hands the resolved argument values to the underlying
library call unchanged. -/
theorem c3_resource_arguments_are_https_urls_passed_unchanged :
    (((resolvedCalls raster_ipynb ++ resolvedCalls part001_ipynb).filter
        (fun c => layerMethods.contains c.method)).all RCall.firstArgIsHttpsUrl) = true
    ∧ ∀ (m : MapState) (method : String) (args : List RArg),
        ((m.invoke method args).underlyingCalls).getLast? = some (method, args) := by
  refine ⟨by decide, fun m method args => ?_⟩
  simp [MapState.invoke]

/-- Counterexample to claim C4: not every argument of the convenience
calls in the examples is a keyword argument; concretely, the add_image
call of docs/examples/raster.ipynb passes its url and bounds
positionally. -/
theorem c4_counterexample_add_image_uses_positional_arguments :
    ((mapCalls raster_ipynb).all fun c => c.args.all Arg.isKw) = false
    ∧ (((mapCalls raster_ipynb).filter (fun c => c.method == "add_image")).all
        fun c => c.args.all Arg.isKw) = false := by
  refine ⟨by decide, by decide⟩

/-- Claim C4 as amended: for each call of the five convenience methods
in the examples, the arguments beyond the method receiver are an initial
run of positional data arguments (resource URL, bounds, layers) followed
exclusively by keyword arguments. -/
theorem c4_amended_positional_data_then_keyword_options :
    ((mapCalls raster_ipynb ++ mapCalls part001_ipynb).all
      fun c => posThenKw c.args) = true := by
  decide

/-- Counterexample to claim C5: under the Jupyter display rule, a
convenience call that yielded a Map widget value fit for a further call
would make every executed cell ending in that bare call record an
execute_result; in docs/examples/raster.ipynb the executed cell
bc345a90 ends in a bare add_raster call and records no output, so the
call returned None, on which no further convenience method can be
called. -/
theorem c5_counterexample_executed_add_raster_cell_has_no_result :
    chainReturnObserved raster_ipynb = false
    ∧ ((raster_ipynb.filter fun c => c.cellId == "bc345a90").all
        fun c => c.executionCount.isSome && endsInBareConvCall c && !hasExecResult c) = true := by
  refine ⟨by decide, by decide⟩

/-- Claim C5 as amended: the convenience methods chain through the
shared receiver rather than through return values: every convenience
call in the examples is made on the same Map variable m, and on the
modelled state two successive convenience invocations compose, leaving
the same widget carrying both underlying calls in order. -/
theorem c5_amended_chaining_through_shared_receiver :
    ((mapCalls raster_ipynb ++ mapCalls part001_ipynb).all fun c => c.recv == "m") = true
    ∧ ∀ (m : MapState) (meth1 meth2 : String) (args1 args2 : List RArg),
        ((m.invoke meth1 args1).invoke meth2 args2).underlyingCalls
          = m.underlyingCalls ++ [(meth1, args1), (meth2, args2)]
        ∧ ((m.invoke meth1 args1).invoke meth2 args2).modelId = m.modelId := by
  refine ⟨by decide, fun m meth1 meth2 args1 args2 => ⟨?_, rfl⟩⟩
  simp [MapState.invoke]

/-- Claim C6: the three libraries the spec names as the facade targets,
ipyleaflet, folium, and localtileserver, are each listed among the
documented requirements of docs/index.md. -/
theorem c6_facade_libraries_listed_in_requirements :
    indexRequirements.contains "ipyleaflet" = true
    ∧ indexRequirements.contains "folium" = true
    ∧ indexRequirements.contains "localtileserver" = true
    ∧ (facadeLibraries.all (indexRequirements.contains ·)) = true := by
  refine ⟨by decide, by decide, by decide, by decide⟩

/-- Counterexample to claim C7: the snapshot is not exactly the site
descriptor plus example notebooks; it also holds the static
documentation page docs/index.md, which is neither. -/
theorem c7_counterexample_index_page_is_neither_config_nor_notebook :
    (repoFiles.all fun f => f.isSiteConfig || f.isConvenienceNotebook) = false
    ∧ repoFiles.filter RepoFile.isDocPage = [RepoFile.docPage "docs/index.md"] := by
  refine ⟨by decide, by decide⟩

/-- Claim C7 as amended: every file of the snapshot is the static site
descriptor, a static documentation page, or an example notebook that
imports salmongis and invokes only the five convenience methods on the
Map, and exactly one file is the descriptor. -/
theorem c7_amended_structure_is_config_pages_and_notebooks :
    (repoFiles.all fun f =>
      f.isSiteConfig || f.isConvenienceNotebook || f.isDocPage) = true
    ∧ repoFiles.countP RepoFile.isSiteConfig = 1 := by
  refine ⟨by decide, by decide⟩

/-- Claim C8: the site configuration executes notebooks with
allow_errors false, so a cell error in any executed notebook fails the
build; notebooks matching the glob *ignore.ipynb are exempt from
execution, and conf.py is excluded from the plugin entirely. -/
theorem c8_build_executes_notebooks_and_fails_on_cell_errors :
    mkdocsCfg.jupyterCfg.execute = true
    ∧ mkdocsCfg.jupyterCfg.allowErrors = false
    ∧ mkdocsCfg.jupyterCfg.processes "conf.py" = false
    ∧ ∀ nm : String,
        (mkdocsCfg.jupyterCfg.willExecute nm = true →
          mkdocsCfg.jupyterCfg.cellErrorFailsBuild nm = true)
        ∧ (globMatch "*ignore.ipynb" nm = true →
          mkdocsCfg.jupyterCfg.willExecute nm = false) := by
  refine ⟨rfl, rfl, by decide, fun nm => ⟨fun h => ?_, fun hg => ?_⟩⟩
  · simp [JupyterPluginCfg.cellErrorFailsBuild, h]
    rfl
  · simp [JupyterPluginCfg.willExecute, mkdocsCfg, hg]

/-- Witness for claim C8 at concrete notebook names. -/
theorem c8_build_semantics_witness :
    mkdocsCfg.jupyterCfg.cellErrorFailsBuild "examples/raster.ipynb" = true
    ∧ mkdocsCfg.jupyterCfg.willExecute "examples/widgets_ignore.ipynb" = false :=
  ⟨((c8_build_executes_notebooks_and_fails_on_cell_errors.2.2.2
      "examples/raster.ipynb").1) (by decide),
   ((c8_build_executes_notebooks_and_fails_on_cell_errors.2.2.2
      "examples/widgets_ignore.ipynb").2) (by decide)⟩

/-- Claim C9: the layer-adding operations mutate the Map in place: the
three executed display cells of the unnamed notebook copy, coming after
add_layer_control, add_raster, and add_image respectively, all show the
same widget model id, and on the modelled state every convenience
invocation preserves the widget identity while the recorded underlying
calls accumulate. -/
theorem c9_layer_operations_mutate_the_map_in_place :
    displayedModelIds part001_ipynb =
      [ "066c40ee5cda4f59b70ad4d87a35e2fc",
        "066c40ee5cda4f59b70ad4d87a35e2fc",
        "066c40ee5cda4f59b70ad4d87a35e2fc" ]
    ∧ methodsBeforeDisplay part001_ipynb =
      [["add_layer_control"], ["add_raster"], ["add_image"]]
    ∧ ∀ (m : MapState) (method : String) (args : List RArg),
        (m.invoke method args).modelId = m.modelId
        ∧ (m.invoke method args).underlyingCalls = m.underlyingCalls ++ [(method, args)] :=
  ⟨by decide, by decide, fun m method args => ⟨rfl, rfl⟩⟩

/-- Claim C10: of all internal documents the navigation names, only
index.md and examples/raster.ipynb exist in the snapshot; the other
fourteen, among them five of the six listed example notebooks and the
four API reference pages, are absent. -/
theorem c10_nav_names_mostly_missing_documents :
    navDocs.filter (snapshotDocPaths.contains ·) = ["index.md", "examples/raster.ipynb"]
    ∧ navDocs.filter (fun p => !(snapshotDocPaths.contains p)) =
      [ "installation.md", "usage.md", "contributing.md", "faq.md", "changelog.md",
        "examples/intro.ipynb", "examples/folium.ipynb", "examples/ipyleaflet.ipynb",
        "examples/split_map.ipynb", "examples/widgets.ipynb",
        "salmongis.md", "common.md", "foliumap.md", "graphs.md" ]
    ∧ (navDocs.filter (fun p => !(snapshotDocPaths.contains p))).countP
        (fun p => strHasSuffix ".ipynb" p) = 5
    ∧ navDocs.countP (fun p => strHasSuffix ".ipynb" p) = 6
    ∧ (["salmongis.md", "common.md", "foliumap.md", "graphs.md"].all
        fun p => navDocs.contains p && !(snapshotDocPaths.contains p)) = true := by
  refine ⟨by decide, by decide, by decide, by decide, by decide⟩

end Salmongis
